import Mathlib

/-!
Shallow embedding of the two reader-writer lock wrappers of the repository.

`Sv2Apps.ExplicitGuard` embeds `src/stratum-apps/src/custom_rw_lock.rs`:
a wrapper around `std::sync::RwLock` offering scoped closure access
(`safe_read` / `safe_write`, poisoning propagated as a `Result`) and
explicit guard access (`read` / `write` returning `ReadGuard` /
`WriteGuard`, each carrying a `released` flag that must be set by an
explicit `release()` call before the guard is dropped, on pain of a panic
in `Drop`).

`Sv2Apps.ClosureLock` embeds `src/stratum-apps/src/custom_read_write_lock.rs`:
a wrapper around `parking_lot::RwLock` exposing only closure-based
`read` / `write`; `parking_lot` locks do not poison.

The guards' `AtomicBool released` flag is modelled as a `Bool`: per the
design, the flag is private to each guard instance and only ever touched
by the single thread owning the guard. Machine effects that are not
return values (a `panic!` in a `Drop` impl, a double-panic abort during
unwinding, std poisoning on a write-guard drop while panicking) are
modelled explicitly: `DropOutcome` records whether a reclamation
panicked, and a small event machine (`Proc`, `step`) records the
process-level consequences, including the abort that follows a panic
inside a panic.
-/

namespace Sv2Apps

namespace ExplicitGuard

/-- Model of the observable state of the inner `std::sync::RwLock<T>`:
the protected value and the poison flag. std marks the lock poisoned
when a write guard is dropped while the owning thread is panicking. -/
structure InnerRwLock (T : Type) where
  value : T
  poisoned : Bool
deriving DecidableEq

/-- Model of `std::sync::RwLockReadGuard<'_, T>`: a live shared hold,
dereferencing to the protected value. -/
structure RwLockReadGuard (T : Type) where
  value : T
deriving DecidableEq

/-- Model of `std::sync::RwLockWriteGuard<'_, T>`: a live exclusive hold. -/
structure RwLockWriteGuard (T : Type) where
  value : T
deriving DecidableEq

/-- Model of `std::sync::PoisonError<G>`: the error returned by a lock
operation on a poisoned lock. It owns the guard of the hold that was
nevertheless acquired, recoverable through `into_inner`. -/
structure PoisonError (G : Type) where
  guard : G
deriving DecidableEq

/-- `PoisonError::into_inner` — consumes the error, returning the guard
it carries, so a caller may ignore poisoning and access the data. -/
def PoisonError.into_inner {G : Type} (e : PoisonError G) : G :=
  e.guard

/-- `std::sync::RwLock::read`: on a poisoned lock the hold is still
acquired but returned inside `Err(PoisonError)`. -/
def InnerRwLock.read {T : Type} (l : InnerRwLock T) :
    Except (PoisonError (RwLockReadGuard T)) (RwLockReadGuard T) :=
  if l.poisoned then Except.error ⟨⟨l.value⟩⟩ else Except.ok ⟨l.value⟩

/-- `std::sync::RwLock::write`, symmetric to `read`. -/
def InnerRwLock.write {T : Type} (l : InnerRwLock T) :
    Except (PoisonError (RwLockWriteGuard T)) (RwLockWriteGuard T) :=
  if l.poisoned then Except.error ⟨⟨l.value⟩⟩ else Except.ok ⟨l.value⟩

/-- `pub struct RwLock<T: ?Sized>(InnerRwLock<T>);` — the wrapper type of
`custom_rw_lock.rs`. -/
structure RwLock (T : Type) where
  inner : InnerRwLock T
deriving DecidableEq

/-- `RwLock::new(value: T)` — wraps `value` in a fresh, unpoisoned lock. -/
def RwLock.new {T : Type} (value : T) : RwLock T :=
  ⟨⟨value, false⟩⟩

/-- `pub struct ReadGuard<'a, T>` — the explicit read guard: the inner
std guard plus the `released` flag, which starts `false`. -/
structure ReadGuard (T : Type) where
  guard : RwLockReadGuard T
  released : Bool
deriving DecidableEq

/-- `pub struct WriteGuard<'a, T>` — the explicit write guard. -/
structure WriteGuard (T : Type) where
  guard : RwLockWriteGuard T
  released : Bool
deriving DecidableEq

/-- `RwLock::read` — acquires a read hold via the inner lock (`?`
propagates a `PoisonError`) and wraps the std guard with
`released: AtomicBool::new(false)`. -/
def RwLock.read {T : Type} (l : RwLock T) :
    Except (PoisonError (RwLockReadGuard T)) (ReadGuard T) :=
  match l.inner.read with
  | Except.error e => Except.error e
  | Except.ok g => Except.ok ⟨g, false⟩

/-- `RwLock::write` — acquires a write hold and wraps the std guard with
`released: AtomicBool::new(false)`. -/
def RwLock.write {T : Type} (l : RwLock T) :
    Except (PoisonError (RwLockWriteGuard T)) (WriteGuard T) :=
  match l.inner.write with
  | Except.error e => Except.error e
  | Except.ok g => Except.ok ⟨g, false⟩

/-- `RwLock::safe_read` — runs `f` on the dereferenced read guard; the
guard never escapes, and a `PoisonError` is propagated via `?`. -/
def RwLock.safe_read {T R : Type} (l : RwLock T) (f : T → R) :
    Except (PoisonError (RwLockReadGuard T)) R :=
  match l.inner.read with
  | Except.error e => Except.error e
  | Except.ok g => Except.ok (f g.value)

/-- `RwLock::safe_write` — runs `f` on the mutably dereferenced write
guard. The callback `&mut T -> R` is modelled as `T → T × R`; the
mutation lands in the lock when the guard drops, so the result pairs the
updated lock with the `Result`. -/
def RwLock.safe_write {T R : Type} (l : RwLock T) (f : T → T × R) :
    RwLock T × Except (PoisonError (RwLockWriteGuard T)) R :=
  match l.inner.write with
  | Except.error e => (l, Except.error e)
  | Except.ok g =>
      let vr := f g.value
      (⟨⟨vr.1, l.inner.poisoned⟩⟩, Except.ok vr.2)

/-- `ReadGuard::release(self)` — stores `true` into the `released` flag;
the consumed guard's storage is then reclaimed (its `Drop` runs next).
The guard state at that reclamation is the returned value. -/
def ReadGuard.release {T : Type} (g : ReadGuard T) : ReadGuard T :=
  { g with released := true }

/-- `Deref for ReadGuard` — borrows the protected value. -/
def ReadGuard.deref {T : Type} (g : ReadGuard T) : T :=
  g.guard.value

/-- `WriteGuard::release(self)` — symmetric to `ReadGuard::release`. -/
def WriteGuard.release {T : Type} (g : WriteGuard T) : WriteGuard T :=
  { g with released := true }

/-- `Deref for WriteGuard`. -/
def WriteGuard.deref {T : Type} (g : WriteGuard T) : T :=
  g.guard.value

/-- `DerefMut for WriteGuard` — mutable access: writing `v` through the
guard updates the value the inner std guard will write back. -/
def WriteGuard.deref_mut {T : Type} (g : WriteGuard T) (v : T) : WriteGuard T :=
  { g with guard := ⟨v⟩ }

/-- Outcome of running a `Drop` impl: either it returns normally or it
panics with a message. -/
inductive DropOutcome where
  | ok
  | panicked (msg : String)
deriving DecidableEq

/-- The panic message of `impl Drop for ReadGuard` in
`custom_rw_lock.rs` (the `\` line continuation in the Rust literal
splices the two lines with the single space kept before it). -/
def readGuardPanicMsg : String :=
  "ReadGuard dropped without explicit release(); this is a bug. Call release() to acknowledge lock lifetime."

/-- The panic message of `impl Drop for WriteGuard`. -/
def writeGuardPanicMsg : String :=
  "WriteGuard dropped without explicit release(); this is a bug. Call release() to acknowledge lock lifetime."

/-- `impl Drop for ReadGuard` — runs exactly once, when the guard's
storage is reclaimed: if the `released` flag is still `false` it panics,
otherwise it returns and the inner std guard drops, ending the hold. -/
def ReadGuard.drop {T : Type} (g : ReadGuard T) : DropOutcome :=
  if !g.released then DropOutcome.panicked readGuardPanicMsg else DropOutcome.ok

/-- `impl Drop for WriteGuard` — symmetric. -/
def WriteGuard.drop {T : Type} (g : WriteGuard T) : DropOutcome :=
  if !g.released then DropOutcome.panicked writeGuardPanicMsg else DropOutcome.ok

/-- Modelled from the spec: the per-guard state machine of section 4.2
(`Acquired` → `Released` via explicit release, `Acquired` → `Faulted`
via reclamation while unreleased, both terminal), kept as a separate
definition so the code-level guard operations can be compared with it. -/
inductive GuardState where
  | Acquired
  | Released
  | Faulted
deriving DecidableEq

/-- The two events a live guard can undergo: an explicit `release()`
call, or reclamation of its storage (scope exit / discard / unwinding). -/
inductive GuardEvent where
  | releaseEvt
  | reclaimEvt
deriving DecidableEq

/-- Modelled from the spec: the transition function of the section 4.2
state machine. `none` means no transition exists from that state. -/
def specGuardStep : GuardState → GuardEvent → Option GuardState
  | GuardState.Acquired, GuardEvent.releaseEvt => some GuardState.Released
  | GuardState.Acquired, GuardEvent.reclaimEvt => some GuardState.Faulted
  | GuardState.Released, _ => none
  | GuardState.Faulted, _ => none

/-- Events of the process-level machine used to follow a lock across a
panic: a `write()` call whose guard is then held, an explicit
`release()` of the held guard, a panic of the holder while the guard is
unreleased (unwinding reclaims the guard), and a `safe_write` call whose
callback panics (the plain std write guard drops during unwinding). -/
inductive Event where
  | acquireWriteCall
  | releaseHeld
  | panicWhileHolding
  | safeWritePanic
deriving DecidableEq

/-- Process-level state: the lock together with the currently held
explicit write guard, if any; or the process has aborted (a panic was
raised while already panicking). -/
inductive Proc (T : Type) where
  | running (lock : InnerRwLock T) (held : Option (WriteGuard T))
  | aborted
deriving DecidableEq

/-- One step of the process-level machine, driven by the embedded
operations. A `panic!` raised inside `Drop` during unwinding is a panic
while panicking, which aborts the process. Events that cannot complete
in the current state (for example a second `write()` while the guard is
held, which would block) leave the state unchanged. -/
def step {T : Type} (p : Proc T) (e : Event) : Proc T :=
  match p, e with
  | Proc.running lock none, Event.acquireWriteCall =>
      match (RwLock.mk lock).write with
      | Except.ok g => Proc.running lock (some g)
      | Except.error _ => Proc.running lock none
  | Proc.running lock (some g), Event.releaseHeld =>
      match (g.release).drop with
      | DropOutcome.ok => Proc.running ⟨g.guard.value, lock.poisoned⟩ none
      | DropOutcome.panicked _ => Proc.aborted
  | Proc.running lock (some g), Event.panicWhileHolding =>
      match g.drop with
      | DropOutcome.ok => Proc.running lock none
      | DropOutcome.panicked _ => Proc.aborted
  | Proc.running lock none, Event.safeWritePanic =>
      match lock.write with
      | Except.ok _ => Proc.running ⟨lock.value, true⟩ none
      | Except.error _ => Proc.running lock none
  | s, _ => s

/-- Runs a list of events from a starting process state. -/
def runTrace {T : Type} (p : Proc T) (tr : List Event) : Proc T :=
  List.foldl step p tr

/-- The observable result of a subsequent `read()` call: `none` when no
result is ever produced (the process aborted, or the call blocks behind
the held write guard), otherwise the `Result` the caller receives. -/
def callRead {T : Type} : Proc T →
    Option (Except (PoisonError (RwLockReadGuard T)) (ReadGuard T))
  | Proc.running lock none => some ((RwLock.mk lock).read)
  | Proc.running _ (some _) => none
  | Proc.aborted => none

/-- The observable result of a subsequent `write()` call, as `callRead`. -/
def callWrite {T : Type} : Proc T →
    Option (Except (PoisonError (RwLockWriteGuard T)) (WriteGuard T))
  | Proc.running lock none => some ((RwLock.mk lock).write)
  | Proc.running _ (some _) => none
  | Proc.aborted => none

end ExplicitGuard

namespace ClosureLock

/-- Model of the observable state of `parking_lot::RwLock<T>`: the
protected value and the outstanding holds. `parking_lot` locks have no
poison flag, so none is modelled. -/
structure PLRwLock (T : Type) where
  value : T
  readers : Nat
  writer : Bool
deriving DecidableEq

/-- Acquiring a shared hold (`self.0.read()` in the source): one more
outstanding reader. -/
def PLRwLock.acquireRead {T : Type} (l : PLRwLock T) : PLRwLock T :=
  { l with readers := l.readers + 1 }

/-- Dropping a `parking_lot` read guard: the hold ends. This also runs
during unwinding if the callback panics; no poison is recorded. -/
def PLRwLock.dropReadGuard {T : Type} (l : PLRwLock T) : PLRwLock T :=
  { l with readers := l.readers - 1 }

/-- Acquiring the exclusive hold (`self.0.write()` in the source). -/
def PLRwLock.acquireWrite {T : Type} (l : PLRwLock T) : PLRwLock T :=
  { l with writer := true }

/-- Dropping a `parking_lot` write guard: the mutations made through the
guard (final value `v`) are in place and the hold ends. Runs during
unwinding too; no poison is recorded. -/
def PLRwLock.dropWriteGuard {T : Type} (l : PLRwLock T) (v : T) : PLRwLock T :=
  { l with value := v, writer := false }

/-- `pub struct RwLock<T: ?Sized>(InnerRwLock<T>);` of
`custom_read_write_lock.rs`, whose inner lock is `parking_lot::RwLock`.
The single tuple field is private and the impl block declares no
constructor. -/
structure RwLock (T : Type) where
  inner : PLRwLock T
deriving DecidableEq

/-- `RwLock::read(f)` — evaluates `f(&*self.0.read())`: acquire the
shared hold, apply `f` to the dereferenced guard, drop the guard when
the expression ends, return the callback result. The lock state is
threaded explicitly. -/
def RwLock.read {T R : Type} (l : RwLock T) (f : T → R) : RwLock T × R :=
  let held := l.inner.acquireRead
  let r := f held.value
  (⟨held.dropReadGuard⟩, r)

/-- `RwLock::write(f)` — evaluates `f(&mut *self.0.write())`: the
callback `&mut T -> R` is modelled as `T → T × R` (final value paired
with the result). -/
def RwLock.write {T R : Type} (l : RwLock T) (f : T → T × R) : RwLock T × R :=
  let held := l.inner.acquireWrite
  let vr := f held.value
  (⟨held.dropWriteGuard vr.1⟩, vr.2)

/-- The names of the public functions declared by the impl blocks of
`custom_read_write_lock.rs`, transcribed from the source: `read` and
`write` only — in particular no `new`, and the tuple field is private,
so the component offers no constructor. -/
def publicFns : List String :=
  ["read", "write"]

/-- Events in the life of a `ClosureLock` instance, including callback
panics: a completed `read`, a completed `write` mutating by `f`, a
callback panicking during a `read`, and a callback panicking during a
`write` after mutating by `g`. In the panic cases the `parking_lot`
guard is dropped during unwinding, releasing the hold; nothing else is
recorded. -/
inductive CEvent (T : Type) where
  | readCall
  | writeCall (f : T → T)
  | readPanic
  | writePanic (g : T → T)

/-- One step of the `ClosureLock` history machine, driven by the
embedded operations. -/
def cstep {T : Type} (l : RwLock T) : CEvent T → RwLock T
  | CEvent.readCall => (l.read (fun v => v)).1
  | CEvent.writeCall f => (l.write (fun v => (f v, ()))).1
  | CEvent.readPanic => ⟨l.inner.acquireRead.dropReadGuard⟩
  | CEvent.writePanic g =>
      ⟨l.inner.acquireWrite.dropWriteGuard (g l.inner.acquireWrite.value)⟩

/-- Runs a list of events from a starting lock state. -/
def crun {T : Type} (l : RwLock T) (tr : List (CEvent T)) : RwLock T :=
  List.foldl cstep l tr

end ClosureLock

end Sv2Apps

open Sv2Apps

/-- Helper: a guard returned by a successful `read()` has `released = false`. -/
theorem read_ok_released_eq_false {T : Type} {l : ExplicitGuard.RwLock T}
    {g : ExplicitGuard.ReadGuard T} (hg : l.read = Except.ok g) :
    g.released = false := by
  unfold ExplicitGuard.RwLock.read ExplicitGuard.InnerRwLock.read at hg
  cases hp : l.inner.poisoned <;> simp [hp] at hg
  rw [← hg]

/-- Helper: a guard returned by a successful `write()` has `released = false`. -/
theorem write_ok_released_eq_false {T : Type} {l : ExplicitGuard.RwLock T}
    {w : ExplicitGuard.WriteGuard T} (hw : l.write = Except.ok w) :
    w.released = false := by
  unfold ExplicitGuard.RwLock.write ExplicitGuard.InnerRwLock.write at hw
  cases hp : l.inner.poisoned <;> simp [hp] at hw
  rw [← hw]

/-- C1: reclaiming a `ReadGuard` or `WriteGuard` whose `released` flag is
still `false` makes its `Drop` impl panic with a fixed message; the two
messages differ and each starts with the leaked guard kind. The outcome
is a function of the guard state, so it is deterministic, and Rust runs
`Drop` exactly once per reclamation. -/
theorem claim1_unreleased_drop_faults (T : Type)
    (g : ExplicitGuard.ReadGuard T) (w : ExplicitGuard.WriteGuard T)
    (hg : g.released = false) (hw : w.released = false) :
    g.drop = ExplicitGuard.DropOutcome.panicked ExplicitGuard.readGuardPanicMsg ∧
    w.drop = ExplicitGuard.DropOutcome.panicked ExplicitGuard.writeGuardPanicMsg ∧
    ExplicitGuard.readGuardPanicMsg.data.take 9 = "ReadGuard".data ∧
    ExplicitGuard.writeGuardPanicMsg.data.take 10 = "WriteGuard".data ∧
    ExplicitGuard.readGuardPanicMsg ≠ ExplicitGuard.writeGuardPanicMsg := by
  refine ⟨?_, ?_, by decide, by decide, by decide⟩
  · simp [ExplicitGuard.ReadGuard.drop, hg]
  · simp [ExplicitGuard.WriteGuard.drop, hw]

/-- Witness for C1 at concrete unreleased guards over `Nat`. -/
theorem claim1_witness :
    ((⟨⟨0⟩, false⟩ : ExplicitGuard.ReadGuard Nat).released = false) ∧
    ((⟨⟨0⟩, false⟩ : ExplicitGuard.ReadGuard Nat).drop
      = ExplicitGuard.DropOutcome.panicked ExplicitGuard.readGuardPanicMsg) ∧
    ((⟨⟨0⟩, false⟩ : ExplicitGuard.WriteGuard Nat).drop
      = ExplicitGuard.DropOutcome.panicked ExplicitGuard.writeGuardPanicMsg) :=
  ⟨rfl,
   (claim1_unreleased_drop_faults Nat ⟨⟨0⟩, false⟩ ⟨⟨0⟩, false⟩ rfl rfl).1,
   (claim1_unreleased_drop_faults Nat ⟨⟨0⟩, false⟩ ⟨⟨0⟩, false⟩ rfl rfl).2.1⟩

/-- C2: `release()` consumes the guard setting `released := true` while
keeping the same underlying hold, and the reclamation that follows it
(the consumed guard is dropped at the end of `release`) raises no
fault. -/
theorem claim2_release_then_drop_is_silent (T : Type)
    (g : ExplicitGuard.ReadGuard T) (w : ExplicitGuard.WriteGuard T) :
    (g.release).released = true ∧ (g.release).guard = g.guard ∧
    (g.release).drop = ExplicitGuard.DropOutcome.ok ∧
    (w.release).released = true ∧ (w.release).guard = w.guard ∧
    (w.release).drop = ExplicitGuard.DropOutcome.ok := by
  refine ⟨rfl, rfl, ?_, rfl, rfl, ?_⟩ <;>
    simp [ExplicitGuard.ReadGuard.drop, ExplicitGuard.WriteGuard.drop,
      ExplicitGuard.ReadGuard.release, ExplicitGuard.WriteGuard.release]

/-- C3: on an unpoisoned lock, `read()` and `write()` return `Ok` with a
guard whose `released` flag is `false`; on a poisoned lock they return
`Err` carrying a `PoisonError`. -/
theorem claim3_read_write_poison_result (T : Type) (l : ExplicitGuard.RwLock T) :
    (l.inner.poisoned = false →
       l.read = Except.ok ⟨⟨l.inner.value⟩, false⟩ ∧
       l.write = Except.ok ⟨⟨l.inner.value⟩, false⟩) ∧
    (l.inner.poisoned = true →
       l.read = Except.error ⟨⟨l.inner.value⟩⟩ ∧
       l.write = Except.error ⟨⟨l.inner.value⟩⟩) := by
  constructor <;> intro h <;>
    simp [ExplicitGuard.RwLock.read, ExplicitGuard.RwLock.write,
      ExplicitGuard.InnerRwLock.read, ExplicitGuard.InnerRwLock.write, h]

/-- Witness for C3: a fresh lock yields an unreleased guard; a poisoned
lock yields a `PoisonError`. -/
theorem claim3_witness :
    ((ExplicitGuard.RwLock.new (0 : Nat)).inner.poisoned = false ∧
     (ExplicitGuard.RwLock.new (0 : Nat)).read = Except.ok ⟨⟨0⟩, false⟩) ∧
    ((⟨⟨1, true⟩⟩ : ExplicitGuard.RwLock Nat).inner.poisoned = true ∧
     (⟨⟨1, true⟩⟩ : ExplicitGuard.RwLock Nat).read = Except.error ⟨⟨1⟩⟩) :=
  ⟨⟨rfl, ((claim3_read_write_poison_result Nat (ExplicitGuard.RwLock.new 0)).1 rfl).1⟩,
   ⟨rfl, ((claim3_read_write_poison_result Nat ⟨⟨1, true⟩⟩).2 rfl).1⟩⟩

/-- C4: the `released` flag evolves one-way. A guard returned by a
successful acquisition has `released = false`; the only flag mutation in
the code, `release()`, sets it to `true` and keeps it `true` when
applied again; `deref_mut` leaves it untouched; reclamation with the
flag `false` faults and with the flag `true` is silent. The code-level
operations therefore realise exactly the spec state machine
`specGuardStep`, whose `Released` and `Faulted` states admit no further
transition. -/
theorem claim4_released_flag_one_way (T : Type) (l : ExplicitGuard.RwLock T)
    (g : ExplicitGuard.ReadGuard T) (w : ExplicitGuard.WriteGuard T) (v : T)
    (hg : l.read = Except.ok g) (hw : l.write = Except.ok w) :
    g.released = false ∧ w.released = false ∧
    (g.release).released = true ∧ (w.release).released = true ∧
    ((g.release).release).released = true ∧
    ((w.release).release).released = true ∧
    (w.deref_mut v).released = w.released ∧
    (g.release).drop = ExplicitGuard.DropOutcome.ok ∧
    (w.release).drop = ExplicitGuard.DropOutcome.ok ∧
    g.drop = ExplicitGuard.DropOutcome.panicked ExplicitGuard.readGuardPanicMsg ∧
    w.drop = ExplicitGuard.DropOutcome.panicked ExplicitGuard.writeGuardPanicMsg ∧
    ExplicitGuard.specGuardStep ExplicitGuard.GuardState.Acquired
      ExplicitGuard.GuardEvent.releaseEvt = some ExplicitGuard.GuardState.Released ∧
    ExplicitGuard.specGuardStep ExplicitGuard.GuardState.Acquired
      ExplicitGuard.GuardEvent.reclaimEvt = some ExplicitGuard.GuardState.Faulted ∧
    ExplicitGuard.specGuardStep ExplicitGuard.GuardState.Released
      ExplicitGuard.GuardEvent.releaseEvt = none ∧
    ExplicitGuard.specGuardStep ExplicitGuard.GuardState.Released
      ExplicitGuard.GuardEvent.reclaimEvt = none ∧
    ExplicitGuard.specGuardStep ExplicitGuard.GuardState.Faulted
      ExplicitGuard.GuardEvent.releaseEvt = none ∧
    ExplicitGuard.specGuardStep ExplicitGuard.GuardState.Faulted
      ExplicitGuard.GuardEvent.reclaimEvt = none := by
  have hg0 := read_ok_released_eq_false hg
  have hw0 := write_ok_released_eq_false hw
  refine ⟨hg0, hw0, rfl, rfl, rfl, rfl, rfl, ?_, ?_, ?_, ?_, rfl, rfl, rfl, rfl, rfl, rfl⟩ <;>
    simp [ExplicitGuard.ReadGuard.drop, ExplicitGuard.WriteGuard.drop,
      ExplicitGuard.ReadGuard.release, ExplicitGuard.WriteGuard.release,
      ExplicitGuard.WriteGuard.deref_mut, hg0, hw0]

/-- Witness for C4 on a fresh lock over `Nat`. -/
theorem claim4_witness :
    ((ExplicitGuard.RwLock.new (0 : Nat)).read = Except.ok ⟨⟨0⟩, false⟩) ∧
    ((ExplicitGuard.RwLock.new (0 : Nat)).write = Except.ok ⟨⟨0⟩, false⟩) ∧
    ((⟨⟨0⟩, false⟩ : ExplicitGuard.ReadGuard Nat).released = false) :=
  ⟨rfl, rfl,
   (claim4_released_flag_one_way Nat (ExplicitGuard.RwLock.new 0)
     ⟨⟨0⟩, false⟩ ⟨⟨0⟩, false⟩ 1 rfl rfl).1⟩

/-- C5: the impl block of `custom_read_write_lock.rs` declares only
`read` and `write`; no `new` constructor exists there (and the wrapped
field is private, so the component offers no way to build a `Lock` at
all), contradicting the contract `new(value: T) -> Lock`. -/
theorem claim5_closure_lock_missing_new :
    ClosureLock.publicFns = ["read", "write"] ∧
    "new" ∉ ClosureLock.publicFns := by
  constructor
  · rfl
  · decide

/-- C6: `ClosureLock.read f` returns `f` applied to the protected value
and hands the lock back exactly as it was (the shared hold taken for the
call is released when `f` returns, the value is untouched);
`ClosureLock.write g` returns `g`'s result, installs `g`'s final value,
and ends with the exclusive hold released. -/
theorem claim6_closure_read_write_result (T R : Type)
    (l : ClosureLock.RwLock T) (f : T → R) (g : T → T × R) :
    l.read f = (l, f l.inner.value) ∧
    (l.write g).2 = (g l.inner.value).2 ∧
    (l.write g).1.inner.value = (g l.inner.value).1 ∧
    (l.write g).1.inner.readers = l.inner.readers ∧
    (l.write g).1.inner.writer = false := by
  refine ⟨?_, rfl, rfl, rfl, rfl⟩
  simp [ClosureLock.RwLock.read, ClosureLock.PLRwLock.acquireRead,
    ClosureLock.PLRwLock.dropReadGuard]

/-- C7: after any history of `ClosureLock` operations, including
histories in which callbacks panicked while holding the lock, `read`
and `write` still return the callback's result directly: the return
type is plain `R`, so there is no error value to surface and no
leak-detection fault, and the result is always the callback applied to
the current protected value. -/
theorem claim7_closure_no_error_path (T R : Type) (l0 : ClosureLock.RwLock T)
    (tr : List (ClosureLock.CEvent T)) (f : T → R) (g : T → T × R) :
    ((ClosureLock.crun l0 tr).read f).2 = f (ClosureLock.crun l0 tr).inner.value ∧
    ((ClosureLock.crun l0 tr).write g).2 = (g (ClosureLock.crun l0 tr).inner.value).2 := by
  exact ⟨rfl, rfl⟩

/-- Helper: once the process has aborted, no event changes the state. -/
theorem step_aborted {T : Type} (e : ExplicitGuard.Event) :
    ExplicitGuard.step (ExplicitGuard.Proc.aborted : ExplicitGuard.Proc T) e
      = ExplicitGuard.Proc.aborted := by
  cases e <;> rfl

/-- Helper: no trace of events leaves the aborted state. -/
theorem runTrace_aborted {T : Type} (tr : List ExplicitGuard.Event) :
    ExplicitGuard.runTrace (ExplicitGuard.Proc.aborted : ExplicitGuard.Proc T) tr
      = ExplicitGuard.Proc.aborted := by
  induction tr with
  | nil => rfl
  | cons e tr ih =>
      simp [ExplicitGuard.runTrace, List.foldl, step_aborted] at ih ⊢
      simpa [step_aborted] using ih

/-- Helper: a poisoned lock with no held guard is a fixed point of the
process machine: every acquisition attempt reports the poison and
changes nothing. -/
theorem step_poisoned_fixed {T : Type} (lock : ExplicitGuard.InnerRwLock T)
    (hp : lock.poisoned = true) (e : ExplicitGuard.Event) :
    ExplicitGuard.step (ExplicitGuard.Proc.running lock none) e
      = ExplicitGuard.Proc.running lock none := by
  cases e <;>
    simp [ExplicitGuard.step, ExplicitGuard.RwLock.write,
      ExplicitGuard.InnerRwLock.write, hp]

/-- Helper: a poisoned, unheld lock stays exactly as it is along any
trace of events. -/
theorem runTrace_poisoned_fixed {T : Type} (lock : ExplicitGuard.InnerRwLock T)
    (hp : lock.poisoned = true) (tr : List ExplicitGuard.Event) :
    ExplicitGuard.runTrace (ExplicitGuard.Proc.running lock none) tr
      = ExplicitGuard.Proc.running lock none := by
  induction tr with
  | nil => rfl
  | cons e tr ih =>
      have h1 := step_poisoned_fixed lock hp e
      simp [ExplicitGuard.runTrace, List.foldl, h1]
      simpa [ExplicitGuard.runTrace] using ih

/-- C8 fails on the code: acquire a write guard on a fresh lock, then
panic before `release()`. Unwinding reclaims the guard, whose `Drop`
observes `released = false` and panics while the thread is already
panicking — the process aborts. No subsequent `read()` or `write()` call
produces any result at all, so in particular none returns a
`PoisonFault`, contrary to the claim. -/
theorem claim8_counterexample :
    ExplicitGuard.runTrace (ExplicitGuard.Proc.running ⟨(0 : Nat), false⟩ none)
        [ExplicitGuard.Event.acquireWriteCall, ExplicitGuard.Event.panicWhileHolding]
      = ExplicitGuard.Proc.aborted ∧
    ExplicitGuard.callRead (ExplicitGuard.Proc.aborted : ExplicitGuard.Proc Nat) = none ∧
    ExplicitGuard.callWrite (ExplicitGuard.Proc.aborted : ExplicitGuard.Proc Nat) = none ∧
    ¬ ∃ e, ExplicitGuard.callRead
        (ExplicitGuard.runTrace (ExplicitGuard.Proc.running ⟨(0 : Nat), false⟩ none)
          [ExplicitGuard.Event.acquireWriteCall, ExplicitGuard.Event.panicWhileHolding])
        = some (Except.error e) := by
  refine ⟨rfl, rfl, rfl, ?_⟩
  rintro ⟨e, he⟩
  simp [ExplicitGuard.runTrace, List.foldl, ExplicitGuard.step,
    ExplicitGuard.RwLock.write, ExplicitGuard.InnerRwLock.write,
    ExplicitGuard.WriteGuard.drop, ExplicitGuard.callRead] at he

/-- C8 amended: a panic of the holder of an unreleased `WriteGuard`
aborts the process (the guard's `Drop` panics during unwinding), and the
aborted state is terminal, so no subsequent call returns anything.
Poisoning propagation holds instead on the closure path: when a
`safe_write` callback panics, the plain std write guard drops during the
panic, the lock becomes poisoned and stays poisoned, and every
subsequent `read()` or `write()` returns a `PoisonFault` whose carried
guard still gives access to the protected value. -/
theorem claim8_amended_abort_or_poison (T : Type)
    (lock : ExplicitGuard.InnerRwLock T) (g : ExplicitGuard.WriteGuard T)
    (tr : List ExplicitGuard.Event)
    (hg : g.released = false) (hp : lock.poisoned = false) :
    ExplicitGuard.step (ExplicitGuard.Proc.running lock (some g))
        ExplicitGuard.Event.panicWhileHolding = ExplicitGuard.Proc.aborted ∧
    ExplicitGuard.callRead
        (ExplicitGuard.runTrace (ExplicitGuard.Proc.aborted : ExplicitGuard.Proc T) tr)
      = none ∧
    ExplicitGuard.callWrite
        (ExplicitGuard.runTrace (ExplicitGuard.Proc.aborted : ExplicitGuard.Proc T) tr)
      = none ∧
    ExplicitGuard.step (ExplicitGuard.Proc.running lock none)
        ExplicitGuard.Event.safeWritePanic
      = ExplicitGuard.Proc.running ⟨lock.value, true⟩ none ∧
    ExplicitGuard.runTrace
        (ExplicitGuard.Proc.running (⟨lock.value, true⟩ : ExplicitGuard.InnerRwLock T) none) tr
      = ExplicitGuard.Proc.running ⟨lock.value, true⟩ none ∧
    (∃ er, ExplicitGuard.callRead
        (ExplicitGuard.Proc.running (⟨lock.value, true⟩ : ExplicitGuard.InnerRwLock T) none)
        = some (Except.error er) ∧ er.into_inner.value = lock.value) ∧
    (∃ ew, ExplicitGuard.callWrite
        (ExplicitGuard.Proc.running (⟨lock.value, true⟩ : ExplicitGuard.InnerRwLock T) none)
        = some (Except.error ew) ∧ ew.into_inner.value = lock.value) := by
  refine ⟨?_, ?_, ?_, ?_, runTrace_poisoned_fixed _ rfl tr, ?_, ?_⟩
  · simp [ExplicitGuard.step, ExplicitGuard.WriteGuard.drop, hg]
  · rw [runTrace_aborted]; rfl
  · rw [runTrace_aborted]; rfl
  · simp [ExplicitGuard.step, ExplicitGuard.InnerRwLock.write, hp]
  · exact ⟨⟨⟨lock.value⟩⟩, by
      simp [ExplicitGuard.callRead, ExplicitGuard.RwLock.read,
        ExplicitGuard.InnerRwLock.read, ExplicitGuard.PoisonError.into_inner]⟩
  · exact ⟨⟨⟨lock.value⟩⟩, by
      simp [ExplicitGuard.callWrite, ExplicitGuard.RwLock.write,
        ExplicitGuard.InnerRwLock.write, ExplicitGuard.PoisonError.into_inner]⟩

/-- Witness for the amended C8 on a fresh `Nat` lock, an unreleased
write guard, and a nonempty subsequent trace. -/
theorem claim8_amended_witness :
    ((⟨⟨5⟩, false⟩ : ExplicitGuard.WriteGuard Nat).released = false) ∧
    ((⟨(5 : Nat), false⟩ : ExplicitGuard.InnerRwLock Nat).poisoned = false) ∧
    ExplicitGuard.step
        (ExplicitGuard.Proc.running (⟨(5 : Nat), false⟩ : ExplicitGuard.InnerRwLock Nat)
          (some ⟨⟨5⟩, false⟩))
        ExplicitGuard.Event.panicWhileHolding = ExplicitGuard.Proc.aborted :=
  ⟨rfl, rfl,
   (claim8_amended_abort_or_poison Nat ⟨5, false⟩ ⟨⟨5⟩, false⟩
     [ExplicitGuard.Event.acquireWriteCall] rfl rfl).1⟩

/-- C9: on a poisoned lock both `read()` and `write()` return a
`PoisonError`, and `into_inner` on that error yields the acquired guard,
whose dereference is the protected value — enough to recover the data if
the caller chooses to ignore poisoning. -/
theorem claim9_poison_error_recovers_value (T : Type)
    (l : ExplicitGuard.RwLock T) (h : l.inner.poisoned = true) :
    (∃ er, l.read = Except.error er ∧ er.into_inner.value = l.inner.value) ∧
    (∃ ew, l.write = Except.error ew ∧ ew.into_inner.value = l.inner.value) := by
  refine ⟨⟨⟨⟨l.inner.value⟩⟩, ?_, rfl⟩, ⟨⟨⟨l.inner.value⟩⟩, ?_, rfl⟩⟩ <;>
    simp [ExplicitGuard.RwLock.read, ExplicitGuard.RwLock.write,
      ExplicitGuard.InnerRwLock.read, ExplicitGuard.InnerRwLock.write, h]

/-- Witness for C9 on a concrete poisoned lock. -/
theorem claim9_witness :
    ((⟨⟨7, true⟩⟩ : ExplicitGuard.RwLock Nat).inner.poisoned = true) ∧
    (∃ er, (⟨⟨7, true⟩⟩ : ExplicitGuard.RwLock Nat).read = Except.error er ∧
      er.into_inner.value = 7) :=
  ⟨rfl, (claim9_poison_error_recovers_value Nat ⟨⟨7, true⟩⟩ rfl).1⟩

/-- C10: `safe_read f` and `safe_write g` run the callback under the
hold without ever handing a guard to the caller: on an unpoisoned lock
they return `Ok` of exactly the callback's result (with `safe_write`
installing the callback's final value and leaving the lock unpoisoned),
and on a poisoned lock they return `Err` of a `PoisonError`, leaving the
value unchanged — unlike `ClosureLock`, which has no error path. -/
theorem claim10_safe_read_safe_write (T R : Type) (l : ExplicitGuard.RwLock T)
    (f : T → R) (g : T → T × R) :
    (l.inner.poisoned = false →
       l.safe_read f = Except.ok (f l.inner.value) ∧
       (l.safe_write g).2 = Except.ok (g l.inner.value).2 ∧
       (l.safe_write g).1.inner.value = (g l.inner.value).1 ∧
       (l.safe_write g).1.inner.poisoned = false) ∧
    (l.inner.poisoned = true →
       (∃ e, l.safe_read f = Except.error e) ∧
       (∃ e, (l.safe_write g).2 = Except.error e) ∧
       (l.safe_write g).1 = l) := by
  constructor <;> intro h <;>
    simp [ExplicitGuard.RwLock.safe_read, ExplicitGuard.RwLock.safe_write,
      ExplicitGuard.InnerRwLock.read, ExplicitGuard.InnerRwLock.write, h]

/-- Witness for C10 on a fresh and on a poisoned `Nat` lock, with a
doubling callback. -/
theorem claim10_witness :
    ((ExplicitGuard.RwLock.new (3 : Nat)).inner.poisoned = false ∧
     (ExplicitGuard.RwLock.new (3 : Nat)).safe_read (fun v => v + v) = Except.ok 6) ∧
    ((⟨⟨3, true⟩⟩ : ExplicitGuard.RwLock Nat).inner.poisoned = true ∧
     ∃ e, (⟨⟨3, true⟩⟩ : ExplicitGuard.RwLock Nat).safe_read (fun v => v + v)
        = Except.error e) :=
  ⟨⟨rfl, ((claim10_safe_read_safe_write Nat Nat (ExplicitGuard.RwLock.new 3)
      (fun v => v + v) (fun v => (v, v))).1 rfl).1⟩,
   ⟨rfl, ((claim10_safe_read_safe_write Nat Nat ⟨⟨3, true⟩⟩
      (fun v => v + v) (fun v => (v, v))).2 rfl).1⟩⟩
